import Mathlib

/-!
Shallow embedding of the visit lifecycle and weekly-recurrence scheduling
engine of the site-comercial repository.

The primary source is src/app.py (the Postgres variant): ensure_supplier,
create_visit, concluir_visit, reabrir_visit, update_visit, delete_visit,
update_manager_comment, list_visits, and the validation guard of
page_agendar_visita.  src/agendamento.py (the SQLite variant) differs in its
list_visits ordering, which is embedded separately as list_visits_ag.

Modelling conventions:
- Calendar dates are day counts (Nat) since 1970-01-01; Python's
  date.weekday() returns 0 for Monday and 1970-01-01 was a Thursday, so the
  weekday index of day d is (d + 3) % 7.  relativedelta(weeks=i) adds 7*i
  days exactly.
- Timestamps (created_at/completed_at, i.e. CURRENT_TIMESTAMP) are Nat values
  passed in as an explicit `now` parameter.
- The database is an explicit record of the stores, suppliers and visits
  tables together with the next SERIAL ids.  SQL UPDATE ... WHERE id = x is a
  map over the visits list that rewrites the matching rows; DELETE is a
  filter; INSERT appends and bumps the serial counter.  An UPDATE or DELETE
  whose WHERE clause matches nothing simply affects zero rows; neither
  source file inspects the rowcount or raises an error in that case.
- Python truthiness of optional filter arguments is embedded explicitly:
  `if store_id:` is false both for None and for 0, and `if status:` is false
  for the empty list.
-/

namespace SiteComercial

/-- Visit status.  The visits table CHECK constraint in both source files
allows exactly the two values 'Pendente' and 'Concluída'. -/
inductive Status where
  | Pendente : Status
  | Concluida : Status
  deriving DecidableEq, Repr

/-- Portuguese weekday labels indexed by Python date.weekday()
(0 = Monday .. 6 = Sunday); the WEEKDAYS_PT dict of src/app.py. -/
def WEEKDAYS_PT : Nat → String
  | 0 => "Segunda-feira"
  | 1 => "Terça-feira"
  | 2 => "Quarta-feira"
  | 3 => "Quinta-feira"
  | 4 => "Sexta-feira"
  | 5 => "Sábado"
  | _ => "Domingo"

/-- Python date.weekday() for a date given as days since 1970-01-01
(which was a Thursday, weekday index 3). -/
def pyWeekday (d : Nat) : Nat := (d + 3) % 7

/-- One row of the visits table (src/app.py init_db), with the
manager_comment column added by the ALTER TABLE statement. -/
structure Visit where
  id : Nat
  store_id : Nat
  visit_date : Nat
  weekday : String
  buyer : String
  supplier_id : Nat
  segment : String
  warranty : String
  info : String
  status : Status
  created_by : Nat
  created_at : Nat
  completed_at : Option Nat
  completed_by : Option Nat
  manager_comment : Option String
  deriving DecidableEq, Repr

/-- The persistent state: the stores, suppliers and visits tables plus the
next SERIAL primary-key values. -/
structure DB where
  stores : List (Nat × String)
  suppliers : List (Nat × String)
  visits : List Visit
  next_supplier_id : Nat
  next_visit_id : Nat
  deriving DecidableEq, Repr

/-- Python str.strip(): drop whitespace from both ends of the string.
Embedded directly on the character list (Lean's byte-position String.trim
computes the same result but does not reduce in the kernel). -/
def pyStrip (s : String) : String :=
  ⟨((s.data.dropWhile Char.isWhitespace).reverse.dropWhile Char.isWhitespace).reverse⟩

/-- ensure_supplier of src/app.py: INSERT .. ON CONFLICT(name) DO UPDATE
RETURNING id, applied to name.strip().  On conflict the existing row's id is
returned; otherwise a fresh row is inserted.  Comparison of names is the
exact (case-sensitive) equality of the UNIQUE TEXT column. -/
def ensure_supplier (db : DB) (name : String) : Nat × DB :=
  match db.suppliers.find? (fun p => p.2 == pyStrip name) with
  | some p => (p.1, db)
  | none =>
      (db.next_supplier_id,
       { db with
           suppliers := db.suppliers ++ [(db.next_supplier_id, pyStrip name)],
           next_supplier_id := db.next_supplier_id + 1 })

/-- The row inserted by insert_one inside create_visit (src/app.py):
status 'Pendente', weekday computed from the row's own visit date, the
completion columns and manager_comment left NULL. -/
def mkRow (supplier_id : Nat) (buyer segment warranty info : String)
    (created_by now : Nat) (vid vdate store_id : Nat) : Visit :=
  { id := vid, store_id := store_id, visit_date := vdate,
    weekday := WEEKDAYS_PT (pyWeekday vdate), buyer := buyer,
    supplier_id := supplier_id, segment := segment, warranty := warranty,
    info := info, status := Status.Pendente, created_by := created_by,
    created_at := now, completed_at := none, completed_by := none,
    manager_comment := none }

/-- insert_one inside create_visit: one INSERT INTO visits. -/
def insert_one (supplier_id : Nat) (buyer segment warranty info : String)
    (created_by now : Nat) (vdate store_id : Nat) (db : DB) : DB :=
  { db with
      visits := db.visits ++
        [mkRow supplier_id buyer segment warranty info created_by now
          db.next_visit_id vdate store_id],
      next_visit_id := db.next_visit_id + 1 }

/-- The store loop of create_visit: for each store id, insert one visit at
visit_date, and when repeat_weekly also at visit_date + 7, + 14, + 21
(relativedelta(weeks=i) for i in range(1, 4)). -/
def schedule_loop (supplier_id : Nat) (visit_date : Nat)
    (buyer segment warranty info : String) (created_by now : Nat)
    (repeat_weekly : Bool) : List Nat → DB → DB
  | [], db => db
  | s :: rest, db =>
      let db1 := insert_one supplier_id buyer segment warranty info created_by now
        visit_date s db
      let db2 :=
        if repeat_weekly then
          insert_one supplier_id buyer segment warranty info created_by now
            (visit_date + 21) s
            (insert_one supplier_id buyer segment warranty info created_by now
              (visit_date + 14) s
              (insert_one supplier_id buyer segment warranty info created_by now
                (visit_date + 7) s db1))
        else db1
      schedule_loop supplier_id visit_date buyer segment warranty info created_by now
        repeat_weekly rest db2

/-- create_visit of src/app.py: resolve the supplier by upsert, then run the
store loop. -/
def create_visit (db : DB) (store_ids : List Nat) (visit_date : Nat)
    (buyer supplier segment warranty info : String) (created_by : Nat)
    (repeat_weekly : Bool) (now : Nat) : DB :=
  let p := ensure_supplier db supplier
  schedule_loop p.1 visit_date buyer segment warranty info created_by now
    repeat_weekly store_ids p.2

/-- The row rewrite performed by concluir_visit's UPDATE: status 'Concluída',
completed_at = CURRENT_TIMESTAMP, completed_by = user_id, and
manager_comment set to the parameter as passed (NULL when the caller passed
none). -/
def concluirRow (user_id : Nat) (manager_comment : Option String) (now : Nat)
    (v : Visit) : Visit :=
  { v with status := Status.Concluida, completed_at := some now,
           completed_by := some user_id, manager_comment := manager_comment }

/-- concluir_visit of src/app.py. -/
def concluir_visit (db : DB) (visit_id user_id : Nat)
    (manager_comment : Option String) (now : Nat) : DB :=
  { db with
      visits := db.visits.map
        (fun v => if v.id = visit_id then concluirRow user_id manager_comment now v
                  else v) }

/-- The row rewrite performed by reabrir_visit's UPDATE: status 'Pendente',
completed_at and completed_by both NULL; no other column appears in the SET
clause. -/
def reabrirRow (v : Visit) : Visit :=
  { v with status := Status.Pendente, completed_at := none, completed_by := none }

/-- reabrir_visit of src/app.py.  The user_id parameter is accepted but does
not occur in the SQL statement. -/
def reabrir_visit (db : DB) (visit_id user_id : Nat) : DB :=
  { db with
      visits := db.visits.map
        (fun v => if v.id = visit_id then reabrirRow v else v) }

/-- update_manager_comment of src/app.py. -/
def update_manager_comment (db : DB) (visit_id : Nat) (comment : String) : DB :=
  { db with
      visits := db.visits.map
        (fun v => if v.id = visit_id then { v with manager_comment := some comment }
                  else v) }

/-- update_visit of src/app.py: resolves the supplier by upsert, then
rewrites the five descriptive columns of the matching row. -/
def update_visit (db : DB) (visit_id : Nat)
    (buyer supplier segment warranty info : String) : DB :=
  let p := ensure_supplier db supplier
  { p.2 with
      visits := p.2.visits.map
        (fun v =>
          if v.id = visit_id then
            { v with buyer := buyer, supplier_id := p.1, segment := segment,
                     warranty := warranty, info := info }
          else v) }

/-- delete_visit of src/app.py: DELETE FROM visits WHERE id = visit_id. -/
def delete_visit (db : DB) (visit_id : Nat) : DB :=
  { db with visits := db.visits.filter (fun v => v.id != visit_id) }

/-- The store filter of list_visits.  Python's `if store_id:` adds the
`v.store_id = %s` clause only when store_id is neither None nor 0. -/
def storeCond (store_id : Option Nat) (v : Visit) : Bool :=
  match store_id with
  | none => true
  | some s => if s == 0 then true else v.store_id == s

/-- The status and date-range filters of list_visits.  `if status:` adds a
membership test only for a non-empty status list (the one-element and ANY
branches of the source are both membership); date bounds are inclusive. -/
def statusDateCond (status : List Status) (start stop : Option Nat)
    (v : Visit) : Bool :=
  (if status.isEmpty then true else decide (v.status ∈ status)) &&
  (match start with | none => true | some a => decide (a ≤ v.visit_date)) &&
  (match stop with | none => true | some b => decide (v.visit_date ≤ b))

/-- The inner JOINs of src/app.py list_visits: a visit row is listed only if
its store and its supplier exist. -/
def joinOk_app (db : DB) (v : Visit) : Bool :=
  db.stores.any (fun p => p.1 == v.store_id) &&
  db.suppliers.any (fun p => p.1 == v.supplier_id)

/-- The single JOIN of src/agendamento.py list_visits (stores only; that
variant keeps the supplier name inline in the visits table). -/
def joinOk_ag (db : DB) (v : Visit) : Bool :=
  db.stores.any (fun p => p.1 == v.store_id)

/-- ORDER BY v.visit_date DESC of src/app.py list_visits, as a relation. -/
def dateDescLe (a b : Visit) : Prop := b.visit_date ≤ a.visit_date

instance : DecidableRel dateDescLe := fun a b =>
  inferInstanceAs (Decidable (b.visit_date ≤ a.visit_date))

instance : IsTotal Visit dateDescLe :=
  ⟨fun a b => Nat.le_total b.visit_date a.visit_date⟩

instance : IsTrans Visit dateDescLe :=
  ⟨fun _ _ _ h1 h2 => Nat.le_trans h2 h1⟩

/-- ORDER BY v.visit_date ASC, v.id ASC of src/agendamento.py list_visits,
as a relation. -/
def dateIdLe (a b : Visit) : Prop :=
  a.visit_date < b.visit_date ∨ (a.visit_date = b.visit_date ∧ a.id ≤ b.id)

instance : DecidableRel dateIdLe := fun a b =>
  inferInstanceAs (Decidable (a.visit_date < b.visit_date ∨
    (a.visit_date = b.visit_date ∧ a.id ≤ b.id)))

instance : IsTotal Visit dateIdLe := by
  refine ⟨fun a b => ?_⟩
  unfold dateIdLe
  rcases Nat.lt_trichotomy a.visit_date b.visit_date with h | h | h
  · exact Or.inl (Or.inl h)
  · rcases Nat.le_total a.id b.id with h2 | h2
    · exact Or.inl (Or.inr ⟨h, h2⟩)
    · exact Or.inr (Or.inr ⟨h.symm, h2⟩)
  · exact Or.inr (Or.inl h)

instance : IsTrans Visit dateIdLe := by
  refine ⟨fun a b c h1 h2 => ?_⟩
  unfold dateIdLe at h1 h2 ⊢
  rcases h1 with h1 | ⟨h1e, h1i⟩ <;> rcases h2 with h2 | ⟨h2e, h2i⟩
  · exact Or.inl (Nat.lt_trans h1 h2)
  · exact Or.inl (h2e ▸ h1)
  · exact Or.inl (h1e ▸ h2)
  · exact Or.inr ⟨h1e.trans h2e, Nat.le_trans h1i h2i⟩

/-- list_visits of src/app.py: the two JOINs, the four optional filters, and
ORDER BY visit_date DESC (no tie-break column; embedded as a stable sort by
that key). -/
def list_visits (db : DB) (store_id : Option Nat) (status : List Status)
    (start stop : Option Nat) : List Visit :=
  List.insertionSort dateDescLe
    (db.visits.filter
      (fun v => joinOk_app db v && storeCond store_id v &&
        statusDateCond status start stop v))

/-- list_visits of src/agendamento.py: same optional filters, stores JOIN
only, and ORDER BY visit_date ASC, id ASC.  The row type of src/app.py is
reused; the inline supplier column of this variant plays no role in the
filtering or ordering. -/
def list_visits_ag (db : DB) (store_id : Option Nat) (status : List Status)
    (start stop : Option Nat) : List Visit :=
  List.insertionSort dateIdLe
    (db.visits.filter
      (fun v => joinOk_ag db v && storeCond store_id v &&
        statusDateCond status start stop v))

/-- The error taxonomy name the specification gives to the validation
warning branch of page_agendar_visita. -/
inductive SchedIssue where
  | ValidationError : SchedIssue
  deriving DecidableEq, Repr

/-- The submit branch of page_agendar_visita (src/app.py): the guard
`if not lojas_escolhidas or not fornecedor` rejects an empty store selection
or an empty supplier string without touching the database; otherwise
create_visit runs.  Store names were already mapped to ids. -/
def page_agendar_visita (db : DB) (store_ids : List Nat) (visit_date : Nat)
    (buyer supplier segment warranty info : String) (created_by : Nat)
    (repeat_weekly : Bool) (now : Nat) : Option SchedIssue × DB :=
  if store_ids.isEmpty || supplier == "" then
    (some SchedIssue.ValidationError, db)
  else
    (none, create_visit db store_ids visit_date buyer supplier segment warranty info
      created_by repeat_weekly now)

/-- A string is blank when it is empty or all whitespace. -/
def isBlank (s : String) : Bool := pyStrip s == ""

/-- The completion-field invariant of one visit row: completed_at and
completed_by are NULL together, and a Pendente row has both NULL. -/
def VisitInv (v : Visit) : Prop :=
  (v.completed_at = none ↔ v.completed_by = none) ∧
  (v.status = Status.Pendente → v.completed_at = none ∧ v.completed_by = none)

instance (v : Visit) : Decidable (VisitInv v) := by
  unfold VisitInv; infer_instance

/-- The invariant over the whole visits table. -/
def DBInv (db : DB) : Prop := ∀ v ∈ db.visits, VisitInv v

instance (db : DB) : Decidable (DBInv db) := by
  unfold DBInv; exact List.decidableBAll _ _

/-- A pending visit row at store 5 used by the concrete instantiations. -/
def baseVisit : Visit :=
  { id := 1, store_id := 5, visit_date := 10,
    weekday := WEEKDAYS_PT (pyWeekday 10), buyer := "Aldo", supplier_id := 1,
    segment := "MERCEARIA", warranty := "", info := "", status := Status.Pendente,
    created_by := 9, created_at := 0, completed_at := none, completed_by := none,
    manager_comment := none }

/-- A small concrete state: one store, one supplier, one pending visit. -/
def sampleDB : DB :=
  { stores := [(5, "HIPODROMO")], suppliers := [(1, "Acme")],
    visits := [baseVisit], next_supplier_id := 2, next_visit_id := 2 }

lemma ensure_supplier_visits (db : DB) (name : String) :
    (ensure_supplier db name).2.visits = db.visits := by
  unfold ensure_supplier
  cases db.suppliers.find? (fun p => p.2 == pyStrip name) <;> rfl

lemma ensure_supplier_next_visit_id (db : DB) (name : String) :
    (ensure_supplier db name).2.next_visit_id = db.next_visit_id := by
  unfold ensure_supplier
  cases db.suppliers.find? (fun p => p.2 == pyStrip name) <;> rfl

/-- The list of rows the store loop of create_visit appends, starting at
serial id nid: one row per store, or four rows one week apart. -/
def schedRows (supplier_id visit_date : Nat) (buyer segment warranty info : String)
    (created_by now : Nat) (repeat_weekly : Bool) (nid : Nat) :
    List Nat → List Visit
  | [] => []
  | s :: rest =>
      if repeat_weekly then
        mkRow supplier_id buyer segment warranty info created_by now nid visit_date s ::
        mkRow supplier_id buyer segment warranty info created_by now (nid + 1) (visit_date + 7) s ::
        mkRow supplier_id buyer segment warranty info created_by now (nid + 2) (visit_date + 14) s ::
        mkRow supplier_id buyer segment warranty info created_by now (nid + 3) (visit_date + 21) s ::
        schedRows supplier_id visit_date buyer segment warranty info created_by now
          true (nid + 4) rest
      else
        mkRow supplier_id buyer segment warranty info created_by now nid visit_date s ::
        schedRows supplier_id visit_date buyer segment warranty info created_by now
          false (nid + 1) rest

lemma schedule_loop_visits (sid d : Nat) (b sg w i : String) (cb now : Nat)
    (rw_ : Bool) (store_ids : List Nat) : ∀ (db : DB),
    (schedule_loop sid d b sg w i cb now rw_ store_ids db).visits
      = db.visits ++ schedRows sid d b sg w i cb now rw_ db.next_visit_id store_ids := by
  induction store_ids with
  | nil => intro db; cases rw_ <;> simp [schedule_loop, schedRows]
  | cons s rest ih =>
      intro db
      cases rw_ with
      | false =>
          simp only [schedule_loop, Bool.false_eq_true, ite_false]
          rw [ih]
          simp [insert_one, schedRows, List.append_assoc]
      | true =>
          simp only [schedule_loop, ite_true]
          rw [ih]
          simp [insert_one, schedRows, List.append_assoc, Nat.add_assoc]

lemma schedRows_length_true (sid d : Nat) (b sg w i : String) (cb now : Nat)
    (store_ids : List Nat) : ∀ (nid : Nat),
    (schedRows sid d b sg w i cb now true nid store_ids).length
      = 4 * store_ids.length := by
  induction store_ids with
  | nil => intro nid; simp [schedRows]
  | cons s rest ih =>
      intro nid
      simp only [schedRows, ite_true, List.length_cons, ih, List.length]
      omega

lemma schedRows_pairs_true (sid d : Nat) (b sg w i : String) (cb now : Nat)
    (store_ids : List Nat) : ∀ (nid : Nat),
    (schedRows sid d b sg w i cb now true nid store_ids).map
        (fun v => (v.store_id, v.visit_date))
      = store_ids.flatMap (fun s => [(s, d), (s, d + 7), (s, d + 14), (s, d + 21)]) := by
  induction store_ids with
  | nil => intro nid; simp [schedRows]
  | cons s rest ih =>
      intro nid
      simp [schedRows, mkRow, ih]

lemma schedRows_mem (sid d : Nat) (b sg w i : String) (cb now : Nat)
    (rw_ : Bool) (store_ids : List Nat) : ∀ (nid : Nat) (v : Visit),
    v ∈ schedRows sid d b sg w i cb now rw_ nid store_ids →
    v.status = Status.Pendente ∧ v.completed_at = none ∧ v.completed_by = none ∧
    v.manager_comment = none ∧ v.weekday = WEEKDAYS_PT (pyWeekday v.visit_date) := by
  induction store_ids with
  | nil => intro nid v hv; simp [schedRows] at hv
  | cons s rest ih =>
      intro nid v hv
      cases rw_ with
      | false =>
          simp only [schedRows, Bool.false_eq_true, ite_false, List.mem_cons] at hv
          rcases hv with rfl | hv
          · simp [mkRow]
          · exact ih _ v hv
      | true =>
          simp only [schedRows, ite_true, List.mem_cons] at hv
          rcases hv with rfl | rfl | rfl | rfl | hv
          · simp [mkRow]
          · simp [mkRow]
          · simp [mkRow]
          · simp [mkRow]
          · exact ih _ v hv

lemma create_visit_visits (db : DB) (store_ids : List Nat) (visit_date : Nat)
    (buyer supplier segment warranty info : String) (created_by : Nat)
    (repeat_weekly : Bool) (now : Nat) :
    (create_visit db store_ids visit_date buyer supplier segment warranty info
        created_by repeat_weekly now).visits
      = db.visits ++ schedRows (ensure_supplier db supplier).1 visit_date buyer
          segment warranty info created_by now repeat_weekly db.next_visit_id
          store_ids := by
  unfold create_visit
  rw [schedule_loop_visits, ensure_supplier_visits, ensure_supplier_next_visit_id]

/-- Claim C1: for every schedule request with repeatWeekly = true over a list
of N store ids, exactly 4N visit rows are created; for each store one visit
at each of startDate, startDate + 1, 2, 3 weeks, in that order; and every
created row has status Pendente and its weekday label computed from that
row's own visit_date. -/
theorem c1_weekly_recurrence (db : DB) (store_ids : List Nat) (visit_date : Nat)
    (buyer supplier segment warranty info : String) (created_by now : Nat) :
    (create_visit db store_ids visit_date buyer supplier segment warranty info
        created_by true now).visits.length
      = db.visits.length + 4 * store_ids.length ∧
    ((create_visit db store_ids visit_date buyer supplier segment warranty info
        created_by true now).visits.drop db.visits.length).map
        (fun v => (v.store_id, v.visit_date))
      = store_ids.flatMap
          (fun s => [(s, visit_date), (s, visit_date + 7), (s, visit_date + 14),
                     (s, visit_date + 21)]) ∧
    ∀ v ∈ (create_visit db store_ids visit_date buyer supplier segment warranty info
        created_by true now).visits.drop db.visits.length,
      v.status = Status.Pendente ∧ v.weekday = WEEKDAYS_PT (pyWeekday v.visit_date) := by
  have hv := create_visit_visits db store_ids visit_date buyer supplier segment
    warranty info created_by true now
  refine ⟨?_, ?_, ?_⟩
  · rw [hv, List.length_append, schedRows_length_true]
  · rw [hv, List.drop_left, schedRows_pairs_true]
  · rw [hv, List.drop_left]
    intro v hv'
    have h := schedRows_mem _ _ _ _ _ _ _ _ _ _ _ v hv'
    exact ⟨h.1, h.2.2.2.2⟩

lemma visitInv_concluirRow (u : Nat) (mc : Option String) (now : Nat) (v : Visit) :
    VisitInv (concluirRow u mc now v) := by
  refine ⟨by simp [concluirRow], ?_⟩
  intro h
  simp [concluirRow] at h

lemma visitInv_reabrirRow (v : Visit) : VisitInv (reabrirRow v) := by
  exact ⟨by simp [reabrirRow], fun _ => ⟨rfl, rfl⟩⟩

lemma visitInv_ite {vid : Nat} {g : Visit → Visit}
    (hg : ∀ v, VisitInv v → VisitInv (g v)) :
    ∀ v, VisitInv v → VisitInv (if v.id = vid then g v else v) := by
  intro v hv
  split
  · exact hg v hv
  · exact hv

lemma DBInv_map {db : DB} (hdb : DBInv db) {f : Visit → Visit}
    (hf : ∀ v, VisitInv v → VisitInv (f v)) :
    ∀ w ∈ db.visits.map f, VisitInv w := by
  intro w hw
  rw [List.mem_map] at hw
  obtain ⟨u, hu, rfl⟩ := hw
  exact hf u (hdb u hu)

/-- The conjunction of facts claim C2 asserts about one state db and one
choice of operation arguments: every operation of §4 preserves the
completion-field invariant, Complete sets completed_at and completed_by
together, Reopen clears them together, and every row created by Schedule is
Pendente with both fields NULL. -/
def C2Post (db : DB) (store_ids : List Nat) (vdate : Nat)
    (buyer supplier segment warranty info : String) (created_by : Nat)
    (repeat_weekly : Bool) (now visit_id user_id : Nat) (mc : Option String)
    (comment : String) : Prop :=
  DBInv (create_visit db store_ids vdate buyer supplier segment warranty info
    created_by repeat_weekly now) ∧
  DBInv (concluir_visit db visit_id user_id mc now) ∧
  DBInv (reabrir_visit db visit_id user_id) ∧
  DBInv (update_visit db visit_id buyer supplier segment warranty info) ∧
  DBInv (delete_visit db visit_id) ∧
  DBInv (update_manager_comment db visit_id comment) ∧
  (∀ w ∈ (concluir_visit db visit_id user_id mc now).visits, w.id = visit_id →
      w.status = Status.Concluida ∧ w.completed_at = some now ∧
      w.completed_by = some user_id) ∧
  (∀ w ∈ (reabrir_visit db visit_id user_id).visits, w.id = visit_id →
      w.status = Status.Pendente ∧ w.completed_at = none ∧ w.completed_by = none) ∧
  (∀ w ∈ (create_visit db store_ids vdate buyer supplier segment warranty info
      created_by repeat_weekly now).visits.drop db.visits.length,
      w.status = Status.Pendente ∧ w.completed_at = none ∧ w.completed_by = none)

/-- Claim C2: every operation preserves the invariant that completed_at and
completed_by are set together and cleared together and that a Pendente visit
has both NULL; Complete sets both, Reopen clears both, and freshly created
visits are Pendente with both NULL. -/
theorem c2_completion_invariant (db : DB) (hdb : DBInv db)
    (store_ids : List Nat) (vdate : Nat)
    (buyer supplier segment warranty info : String) (created_by : Nat)
    (repeat_weekly : Bool) (now visit_id user_id : Nat) (mc : Option String)
    (comment : String) :
    C2Post db store_ids vdate buyer supplier segment warranty info created_by
      repeat_weekly now visit_id user_id mc comment := by
  have hcreate := create_visit_visits db store_ids vdate buyer supplier segment
    warranty info created_by repeat_weekly now
  refine ⟨?_, ?_, ?_, ?_, ?_, ?_, ?_, ?_, ?_⟩
  · intro v hv
    rw [hcreate, List.mem_append] at hv
    rcases hv with hv | hv
    · exact hdb v hv
    · have h := schedRows_mem _ _ _ _ _ _ _ _ _ _ _ v hv
      exact ⟨by rw [h.2.1, h.2.2.1], fun _ => ⟨h.2.1, h.2.2.1⟩⟩
  · exact DBInv_map hdb (visitInv_ite (fun v _ => visitInv_concluirRow user_id mc now v))
  · exact DBInv_map hdb (visitInv_ite (fun v _ => visitInv_reabrirRow v))
  · intro w hw
    have hvis : (update_visit db visit_id buyer supplier segment warranty info).visits
        = db.visits.map (fun v =>
            if v.id = visit_id then
              { v with buyer := buyer,
                       supplier_id := (ensure_supplier db supplier).1,
                       segment := segment, warranty := warranty, info := info }
            else v) := by
      rw [show (update_visit db visit_id buyer supplier segment warranty info).visits
          = (ensure_supplier db supplier).2.visits.map (fun v =>
              if v.id = visit_id then
                { v with buyer := buyer,
                         supplier_id := (ensure_supplier db supplier).1,
                         segment := segment, warranty := warranty, info := info }
              else v) from rfl, ensure_supplier_visits]
    rw [hvis] at hw
    refine DBInv_map hdb (fun v hv => ?_) w hw
    by_cases h : v.id = visit_id
    · rw [if_pos h]
      exact ⟨hv.1, hv.2⟩
    · rw [if_neg h]
      exact hv
  · intro w hw
    have hw' : w ∈ db.visits := List.mem_of_mem_filter hw
    exact hdb w hw'
  · exact DBInv_map hdb (visitInv_ite (fun v hv => ⟨hv.1, hv.2⟩))
  · intro w hw hid
    rw [show (concluir_visit db visit_id user_id mc now).visits
        = db.visits.map (fun v => if v.id = visit_id then
            concluirRow user_id mc now v else v) from rfl, List.mem_map] at hw
    obtain ⟨u, _, rfl⟩ := hw
    by_cases h : u.id = visit_id
    · rw [if_pos h]
      exact ⟨rfl, rfl, rfl⟩
    · rw [if_neg h] at hid
      exact absurd hid h
  · intro w hw hid
    rw [show (reabrir_visit db visit_id user_id).visits
        = db.visits.map (fun v => if v.id = visit_id then reabrirRow v else v)
        from rfl, List.mem_map] at hw
    obtain ⟨u, _, rfl⟩ := hw
    by_cases h : u.id = visit_id
    · rw [if_pos h]
      exact ⟨rfl, rfl, rfl⟩
    · rw [if_neg h] at hid
      exact absurd hid h
  · rw [hcreate, List.drop_left]
    intro w hw
    have h := schedRows_mem _ _ _ _ _ _ _ _ _ _ _ w hw
    exact ⟨h.1, h.2.1, h.2.2.1⟩

/-- Witness for c2_completion_invariant at a concrete state and concrete
operation arguments. -/
theorem c2_completion_invariant_witness :
    DBInv sampleDB ∧
    C2Post sampleDB [5] 10 "Aldo" "Acme" "MERCEARIA" "" "" 9 true 0 1 7
      (some "ok") "hi" :=
  ⟨by decide,
   c2_completion_invariant sampleDB (by decide) [5] 10 "Aldo" "Acme" "MERCEARIA"
     "" "" 9 true 0 1 7 (some "ok") "hi"⟩

/-- A state whose single pending visit already carries a manager comment. -/
def c3DB : DB :=
  { sampleDB with visits := [{ baseVisit with manager_comment := some "old" }] }

/-- Claim C3 counterexample: completing visit 1 of c3DB while supplying no
comment overwrites its existing manager_comment "old" with NULL, so the
existing comment is not left unchanged. -/
theorem c3_counterexample :
    c3DB.visits.map (fun v => v.manager_comment) = [some "old"] ∧
    (concluir_visit c3DB 1 7 none 100).visits.map (fun v => v.manager_comment)
      = [none] :=
  ⟨rfl, rfl⟩

/-- Claim C3 amended: Complete always stores its comment argument as the new
manager_comment of the completed visit; when the caller supplies no comment
the field is set to NULL (the UPDATE's SET clause always includes
manager_comment). -/
theorem c3_complete_overwrites_comment (db : DB) (visit_id user_id : Nat)
    (mc : Option String) (now : Nat) :
    ∀ w ∈ (concluir_visit db visit_id user_id mc now).visits, w.id = visit_id →
      w.manager_comment = mc := by
  intro w hw hid
  rw [show (concluir_visit db visit_id user_id mc now).visits
      = db.visits.map (fun v => if v.id = visit_id then
          concluirRow user_id mc now v else v) from rfl, List.mem_map] at hw
  obtain ⟨u, _, rfl⟩ := hw
  by_cases h : u.id = visit_id
  · rw [if_pos h]
    rfl
  · rw [if_neg h] at hid
    exact absurd hid h

/-- The row of c3DB's visit after completion without a comment. -/
def c3w : Visit :=
  { baseVisit with
      status := Status.Concluida, completed_at := some 100,
      completed_by := some 7, manager_comment := none }

/-- Witness for c3_complete_overwrites_comment at a concrete state. -/
theorem c3_complete_overwrites_comment_witness :
    (c3w ∈ (concluir_visit c3DB 1 7 none 100).visits ∧ c3w.id = 1) ∧
    c3w.manager_comment = none :=
  ⟨⟨by decide, by decide⟩,
   c3_complete_overwrites_comment c3DB 1 7 none 100 c3w (by decide) (by decide)⟩

/-- Claim C4: after Complete then Reopen, every row with the targeted id is
Pendente with completed_at and completed_by NULL, and every row of the
reopened state keeps the manager_comment and all descriptive fields it had
just before the Reopen. -/
theorem c4_complete_then_reopen (db : DB) (visit_id user_id : Nat)
    (mc : Option String) (now user_id2 : Nat) (w : Visit)
    (hw : w ∈ (reabrir_visit (concluir_visit db visit_id user_id mc now)
        visit_id user_id2).visits) :
    (w.id = visit_id → w.status = Status.Pendente ∧ w.completed_at = none ∧
        w.completed_by = none) ∧
    ∃ v, v ∈ (concluir_visit db visit_id user_id mc now).visits ∧ v.id = w.id ∧
      w.manager_comment = v.manager_comment ∧ w.store_id = v.store_id ∧
      w.visit_date = v.visit_date ∧ w.weekday = v.weekday ∧ w.buyer = v.buyer ∧
      w.supplier_id = v.supplier_id ∧ w.segment = v.segment ∧
      w.warranty = v.warranty ∧ w.info = v.info ∧ w.created_by = v.created_by ∧
      w.created_at = v.created_at := by
  rw [show (reabrir_visit (concluir_visit db visit_id user_id mc now)
      visit_id user_id2).visits
      = (concluir_visit db visit_id user_id mc now).visits.map
          (fun v => if v.id = visit_id then reabrirRow v else v) from rfl,
      List.mem_map] at hw
  obtain ⟨u, hu, rfl⟩ := hw
  by_cases h : u.id = visit_id
  · rw [if_pos h]
    exact ⟨fun _ => ⟨rfl, rfl, rfl⟩,
      u, hu, rfl, rfl, rfl, rfl, rfl, rfl, rfl, rfl, rfl, rfl, rfl, rfl⟩
  · rw [if_neg h]
    exact ⟨fun hid => absurd hid h,
      u, hu, rfl, rfl, rfl, rfl, rfl, rfl, rfl, rfl, rfl, rfl, rfl, rfl⟩

/-- The row of c3DB's visit after Complete (with comment "note") and Reopen. -/
def c4w : Visit := { baseVisit with manager_comment := some "note" }

/-- Witness for c4_complete_then_reopen at a concrete state. -/
theorem c4_complete_then_reopen_witness :
    c4w ∈ (reabrir_visit (concluir_visit c3DB 1 7 (some "note") 100) 1 8).visits ∧
    ((c4w.id = 1 → c4w.status = Status.Pendente ∧ c4w.completed_at = none ∧
        c4w.completed_by = none) ∧
     ∃ v, v ∈ (concluir_visit c3DB 1 7 (some "note") 100).visits ∧ v.id = c4w.id ∧
       c4w.manager_comment = v.manager_comment ∧ c4w.store_id = v.store_id ∧
       c4w.visit_date = v.visit_date ∧ c4w.weekday = v.weekday ∧
       c4w.buyer = v.buyer ∧ c4w.supplier_id = v.supplier_id ∧
       c4w.segment = v.segment ∧ c4w.warranty = v.warranty ∧ c4w.info = v.info ∧
       c4w.created_by = v.created_by ∧ c4w.created_at = v.created_at) :=
  ⟨by decide, c4_complete_then_reopen c3DB 1 7 (some "note") 100 8 c4w (by decide)⟩

/-- Claim C10: the userId argument of Reopen has no effect on the resulting
state; reabrir_visit's SQL statement never references it, so which user
reopened a visit is not recorded anywhere. -/
theorem c10_reopen_ignores_user (db : DB) (visit_id u1 u2 : Nat) :
    reabrir_visit db visit_id u1 = reabrir_visit db visit_id u2 := rfl

/-- The empty database. -/
def emptyDB : DB :=
  { stores := [], suppliers := [], visits := [], next_supplier_id := 1,
    next_visit_id := 1 }

/-- A state with two pending visits on different dates (10 and 20). -/
def twoDB : DB :=
  { stores := [(5, "HIPODROMO")], suppliers := [(1, "Acme")],
    visits := [baseVisit, { baseVisit with id := 2, visit_date := 20 }],
    next_supplier_id := 2, next_visit_id := 3 }

/-- Claim C5 counterexample: with no filters, src/app.py's list_visits on
twoDB returns the visit dates in the order [20, 10] (ORDER BY visit_date
DESC), which is not ascending by visit_date with id tie-break. -/
theorem c5_counterexample :
    (list_visits twoDB none [] none none).map (fun v => v.visit_date) = [20, 10] ∧
    ¬ List.Pairwise dateIdLe (list_visits twoDB none [] none none) :=
  ⟨by decide, by decide⟩

/-- Claim C5 amended: src/agendamento.py's list_visits returns its rows
sorted ascending by visit_date with ties broken ascending by id, for every
filter combination; src/app.py's list_visits instead sorts descending by
visit_date (no tie-break column). -/
theorem c5_sort_orders (db : DB) (store_id : Option Nat) (status : List Status)
    (start stop : Option Nat) :
    List.Sorted dateIdLe (list_visits_ag db store_id status start stop) ∧
    List.Sorted dateDescLe (list_visits db store_id status start stop) :=
  ⟨List.sorted_insertionSort dateIdLe _, List.sorted_insertionSort dateDescLe _⟩

/-- Claim C6 counterexample: upserting "Acme" into the empty database and
then " acme " yields two distinct supplier ids (1 then 2): strip removes the
whitespace, but the UNIQUE name comparison is case-sensitive, so the
case-variant spelling creates a second supplier. -/
theorem c6_counterexample :
    (ensure_supplier emptyDB "Acme").1 = 1 ∧
    (ensure_supplier (ensure_supplier emptyDB "Acme").2 " acme ").1 = 2 :=
  ⟨by decide, by decide⟩

/-- Claim C6 amended: upserting two spellings of a name that agree after
stripping leading and trailing whitespace resolves to the same supplier id;
spellings that differ in letter case are distinct suppliers
(c6_counterexample). -/
theorem c6_upsert_strip_idempotent (db : DB) (n1 n2 : String)
    (h : pyStrip n1 = pyStrip n2) :
    (ensure_supplier (ensure_supplier db n1).2 n2).1
      = (ensure_supplier db n1).1 := by
  unfold ensure_supplier
  simp only [← h]
  cases hf : db.suppliers.find? (fun p => p.2 == pyStrip n1) with
  | some p => simp [hf]
  | none => simp [hf, List.find?_append, List.find?]

/-- Witness for c6_upsert_strip_idempotent at concrete spellings. -/
theorem c6_upsert_strip_idempotent_witness :
    pyStrip "Acme" = pyStrip " Acme " ∧
    (ensure_supplier (ensure_supplier emptyDB "Acme").2 " Acme ").1
      = (ensure_supplier emptyDB "Acme").1 :=
  ⟨by decide, c6_upsert_strip_idempotent emptyDB "Acme" " Acme " (by decide)⟩

/-- A state with one store and nothing else. -/
def c7DB : DB :=
  { stores := [(1, "HIPODROMO")], suppliers := [], visits := [],
    next_supplier_id := 1, next_visit_id := 1 }

/-- Claim C7 counterexample: the supplier name " " is blank (whitespace
only), yet the submit guard accepts it — `not fornecedor` only rejects the
empty string — and one visit row is created, with the supplier name stored
as "" after stripping. -/
theorem c7_counterexample :
    isBlank " " = true ∧
    (page_agendar_visita c7DB [1] 10 "Aldo" " " "MERCEARIA" "" "" 9 false 0).1
      = none ∧
    (page_agendar_visita c7DB [1] 10 "Aldo" " " "MERCEARIA" "" "" 9 false 0).2.visits.length
      = c7DB.visits.length + 1 :=
  ⟨by decide, by decide, by decide⟩

/-- Claim C7 amended: scheduling with an empty store list or an empty
supplier string fails with ValidationError and returns the state unchanged
(zero rows created); a whitespace-only supplier name, however, passes the
guard (c7_counterexample). -/
theorem c7_empty_input_rejected (db : DB) (store_ids : List Nat)
    (visit_date : Nat) (buyer supplier segment warranty info : String)
    (created_by : Nat) (repeat_weekly : Bool) (now : Nat)
    (h : store_ids = [] ∨ supplier = "") :
    page_agendar_visita db store_ids visit_date buyer supplier segment warranty
      info created_by repeat_weekly now
      = (some SchedIssue.ValidationError, db) := by
  unfold page_agendar_visita
  rcases h with rfl | rfl
  · simp
  · simp

/-- Witness for c7_empty_input_rejected with an empty store list. -/
theorem c7_empty_input_rejected_witness :
    (([] : List Nat) = [] ∨ "Acme" = "") ∧
    page_agendar_visita emptyDB [] 10 "Aldo" "Acme" "MERCEARIA" "" "" 9 false 0
      = (some SchedIssue.ValidationError, emptyDB) :=
  ⟨Or.inl rfl,
   c7_empty_input_rejected emptyDB [] 10 "Aldo" "Acme" "MERCEARIA" "" "" 9
     false 0 (Or.inl rfl)⟩

/-- Claim C8 counterexample: in c7DB no visit with id 99 exists (the visits
table is empty); update_visit on id 99 raises nothing, updates no visit row,
yet still changes the stored state: the supplier upsert inserts "NewSup"
into the suppliers table. -/
theorem c8_counterexample :
    c7DB.visits = [] ∧
    (update_visit c7DB 99 "Aldo" "NewSup" "MERCEARIA" "" "").visits = [] ∧
    (update_visit c7DB 99 "Aldo" "NewSup" "MERCEARIA" "" "").suppliers
      ≠ c7DB.suppliers :=
  ⟨rfl, by decide, by decide⟩

lemma map_id_of_no_match {l : List Visit} {vid : Nat}
    (h : ∀ v ∈ l, v.id ≠ vid) (g : Visit → Visit) :
    l.map (fun v => if v.id = vid then g v else v) = l := by
  induction l with
  | nil => rfl
  | cons a as ih =>
      simp only [List.map_cons]
      rw [if_neg (h a (List.mem_cons_self a as)),
        ih (fun v hv => h v (List.mem_cons_of_mem a hv))]

/-- Claim C8 amended: when no visit has the given id, Complete, Reopen,
Delete and the comment update return the state unchanged and no error is
raised (the code has no NotFoundError path — the UPDATE or DELETE silently
affects zero rows); Update likewise changes no visit row, but its supplier
upsert may still insert a new supplier row (c8_counterexample). -/
theorem c8_missing_id_noop (db : DB) (visit_id : Nat)
    (h : ∀ v ∈ db.visits, v.id ≠ visit_id) (user_id : Nat) (mc : Option String)
    (now user_id2 : Nat) (buyer supplier segment warranty info comment : String) :
    concluir_visit db visit_id user_id mc now = db ∧
    reabrir_visit db visit_id user_id2 = db ∧
    delete_visit db visit_id = db ∧
    update_manager_comment db visit_id comment = db ∧
    (update_visit db visit_id buyer supplier segment warranty info).visits
      = db.visits := by
  refine ⟨?_, ?_, ?_, ?_, ?_⟩
  · unfold concluir_visit
    rw [map_id_of_no_match h]
  · unfold reabrir_visit
    rw [map_id_of_no_match h]
  · unfold delete_visit
    rw [List.filter_eq_self.mpr (fun v hv => by simpa using h v hv)]
  · unfold update_manager_comment
    rw [map_id_of_no_match h]
  · rw [show (update_visit db visit_id buyer supplier segment warranty info).visits
        = (ensure_supplier db supplier).2.visits.map (fun v =>
            if v.id = visit_id then
              { v with buyer := buyer,
                       supplier_id := (ensure_supplier db supplier).1,
                       segment := segment, warranty := warranty, info := info }
            else v) from rfl,
      ensure_supplier_visits, map_id_of_no_match h]

/-- Witness for c8_missing_id_noop: sampleDB has no visit with id 99. -/
theorem c8_missing_id_noop_witness :
    (∀ v ∈ sampleDB.visits, v.id ≠ 99) ∧
    (concluir_visit sampleDB 99 7 none 100 = sampleDB ∧
     reabrir_visit sampleDB 99 8 = sampleDB ∧
     delete_visit sampleDB 99 = sampleDB ∧
     update_manager_comment sampleDB 99 "hi" = sampleDB ∧
     (update_visit sampleDB 99 "Aldo" "Acme" "MERCEARIA" "" "").visits
       = sampleDB.visits) :=
  ⟨by decide,
   c8_missing_id_noop sampleDB 99 (by decide) 7 none 100 8 "Aldo" "Acme"
     "MERCEARIA" "" "" "hi"⟩

/-- Claim C9 counterexample: filtering by storeId = 0 does not restrict the
result to visits of store 0 — Python's `if store_id:` treats 0 like None, so
sampleDB's visit at store 5 is returned. -/
theorem c9_counterexample :
    (list_visits sampleDB (some 0) [] none none).map (fun v => v.store_id)
      = [5] ∧
    ¬ ∀ v ∈ list_visits sampleDB (some 0) [] none none, v.store_id = 0 :=
  ⟨by decide, by decide⟩

/-- Claim C9 amended: for every nonzero S, both list_visits variants return
only visits whose store_id equals S; with storeId unset every visit that
passes the joins and the other filters is returned, whatever its store.
(Passing storeId = 0 also returns all stores, by Python truthiness —
c9_counterexample.) -/
theorem c9_store_filter (db : DB) (S : Nat) (status : List Status)
    (start stop : Option Nat) (hS : S ≠ 0) :
    (∀ v ∈ list_visits db (some S) status start stop, v.store_id = S) ∧
    (∀ v ∈ list_visits_ag db (some S) status start stop, v.store_id = S) ∧
    (∀ v ∈ db.visits, joinOk_app db v = true →
        statusDateCond status start stop v = true →
        v ∈ list_visits db none status start stop) ∧
    (∀ v ∈ db.visits, joinOk_ag db v = true →
        statusDateCond status start stop v = true →
        v ∈ list_visits_ag db none status start stop) := by
  have h0 : (S == 0) = false := beq_eq_false_iff_ne.mpr hS
  have hstore : ∀ v : Visit, storeCond (some S) v = true → v.store_id = S := by
    intro v hv
    simp only [storeCond, h0, Bool.false_eq_true, if_false, beq_iff_eq] at hv
    exact hv
  refine ⟨?_, ?_, ?_, ?_⟩
  · intro v hv
    unfold list_visits at hv
    rw [List.mem_insertionSort, List.mem_filter] at hv
    have hc := hv.2
    simp only [Bool.and_eq_true] at hc
    exact hstore v hc.1.2
  · intro v hv
    unfold list_visits_ag at hv
    rw [List.mem_insertionSort, List.mem_filter] at hv
    have hc := hv.2
    simp only [Bool.and_eq_true] at hc
    exact hstore v hc.1.2
  · intro v hv hj hsd
    unfold list_visits
    rw [List.mem_insertionSort, List.mem_filter]
    exact ⟨hv, by simp [storeCond, hj, hsd]⟩
  · intro v hv hj hsd
    unfold list_visits_ag
    rw [List.mem_insertionSort, List.mem_filter]
    exact ⟨hv, by simp [storeCond, hj, hsd]⟩

/-- Witness for c9_store_filter at S = 5 on sampleDB. -/
theorem c9_store_filter_witness :
    (5 : Nat) ≠ 0 ∧
    ((∀ v ∈ list_visits sampleDB (some 5) [] none none, v.store_id = 5) ∧
     (∀ v ∈ list_visits_ag sampleDB (some 5) [] none none, v.store_id = 5) ∧
     (∀ v ∈ sampleDB.visits, joinOk_app sampleDB v = true →
         statusDateCond [] none none v = true →
         v ∈ list_visits sampleDB none [] none none) ∧
     (∀ v ∈ sampleDB.visits, joinOk_ag sampleDB v = true →
         statusDateCond [] none none v = true →
         v ∈ list_visits_ag sampleDB none [] none none)) :=
  ⟨by decide, c9_store_filter sampleDB 5 [] none none (by decide)⟩

end SiteComercial
